import Mathlib

/-
Verification of the fractal-notify notification/logging core.

The definitions below are a shallow embedding of the final revision of the
Go sources (src/fractal/notify/notify.go, notify_private.go,
notify_codes.go).  Go channels are modelled explicitly: the note channel is
a FIFO list, a `chan<- bool` confirmation channel is modelled by a Bool
flag saying whether the channel is non-nil, and the Go rule that a send on
a nil channel blocks forever is reflected by an explicit `blocked` outcome.
Go maps are reference types, so the notification-code table lives in a heap
(`Store`) and the notifier holds its address.  `panic` is modelled by a
dedicated outcome.  Wall-clock time (`time.Now`) is passed in as an
explicit `now` parameter; `runtime.Caller` decoration of messages and the
`fmt.Sprintf` formatting step are outside the model (the already-formatted
text is passed in).
-/

/-- A severity tag and a human label, Go `[2]string` in the code table. -/
abbrev CodeEntry := String × String

/-- The notification-code table, Go `map[int][2]string`, modelled as an
association list with distinct keys. -/
abbrev CodeTable := List (Int × CodeEntry)

/-- Lookup in a code table, Go `table[code]` returning `(value, ok)`. -/
def tblLookup (t : CodeTable) (c : Int) : Option CodeEntry :=
  match t with
  | [] => none
  | (k, v) :: rest => if k = c then some v else tblLookup rest c

/-- Assignment `table[code] = entry` in a Go map: replaces any previous
binding of the key. -/
def tblInsert (t : CodeTable) (c : Int) (v : CodeEntry) : CodeTable :=
  (c, v) :: t.filter (fun p => decide (p.1 ≠ c))

/-- The heap of code-table objects.  Go maps are references: assigning
`no.notificationCodes = standardCodes` copies the address, not the table.
A notifier stores an index into this list. -/
abbrev Store := List CodeTable

/-- `notification` (notify.go lines 10-13): the coded error struct. -/
structure notification where
  code : Int
  message : String
deriving DecidableEq

/-- A Go `error` value as seen by `IsCode`: either a `notify.notification`
or any other implementation of the error interface. -/
inductive ErrValue where
  | notif (n : notification)
  | generic (message : String)
deriving DecidableEq

/-- `IsCode` (notify.go lines 23-29): a type assertion on `notification`,
falling back to `code == 1` for every other error implementation. -/
def IsCode (code : Int) (err : ErrValue) : Bool :=
  match err with
  | .notif n => decide (code = n.code)
  | .generic _ => decide (code = 1)

/-- The `interface{}` payload of a note: a plain string, a
`notify.notification`, another `error` implementation, or an unsupported
type (the `default` arm of the type switches). -/
inductive NoteValue where
  | str (s : String)
  | notif (n : notification)
  | err (message : String)
  | other
deriving DecidableEq

/-- True for the `case string:` arm of the type switch in `Run`. -/
def NoteValue.isStr : NoteValue → Bool
  | .str _ => true
  | _ => false

/-- The error part of a value, Go `value.(error)`: a `notification`
implements `error`, so both it and generic errors are caught. -/
def errPart : NoteValue → Option ErrValue
  | .str _ => none
  | .notif n => some (.notif n)
  | .err m => some (.generic m)
  | .other => none

/-- `note` (notify_private.go lines 17-21).  `hasConfirm` records whether
the `Confirm chan<- bool` field is non-nil. -/
structure note where
  Sender : String
  Value : NoteValue
  hasConfirm : Bool
deriving DecidableEq

/-- `newf` (notify_private.go lines 111-131).  `msg` stands for the text
after `fmt.Sprintf`; the `runtime.Caller` suffix is not modelled.  The
returned Bool records whether the `syswarn` about a negative code was
printed.  Note the guard in the source is `code < 0`, not `code < 1`. -/
def newf (code : Int) (msg : String) : notification × Bool :=
  if code < 0 then ({ code := 1, message := msg }, true)
  else ({ code := code, message := msg }, false)

/-- The notification built and routed by a `Failure(sender)` closure
(notify.go lines 120-125): `newf(code, 2, format, a...)`. -/
def FailureValue (code : Int) (msg : String) : notification :=
  (newf code msg).1

/-- Whether the `Failure` closure's call to `newf` printed the
negative-code warning. -/
def FailureWarned (code : Int) (msg : String) : Bool :=
  (newf code msg).2

/-- Outcome of `route` (notify_private.go lines 134-144) as a state
transition on the queue.  When halting and a confirmation channel was
supplied, `confirm <- true` succeeds (the waiter receives) and the
`syswarn` is printed; when halting and `confirm` is nil, the Go statement
`confirm <- true` is a send on a nil channel, which blocks forever, so
`route` never returns. -/
inductive RouteOutcome where
  | queued (queue : List note)
  | rejected (warning : String)
  | blocked
deriving DecidableEq

/-- `route` (notify_private.go lines 134-144). -/
def route (sender : String) (value : NoteValue) (confirm : Bool)
    (queue : List note) (halt : Bool) : RouteOutcome :=
  if ¬halt then
    .queued (queue ++ [{ Sender := sender, Value := value, hasConfirm := confirm }])
  else if confirm then
    .rejected (sender ++ " cannot send to a closed channel")
  else
    .blocked

/-- What the caller of `send` observes: either the call blocks forever
(inside a synchronous `route`) or it returns the error part of the value. -/
inductive SendOutcome where
  | blocked
  | returned (ret : Option ErrValue)
deriving DecidableEq

/-- `send` (notify_private.go lines 147-161).  With `async` the call to
`route` happens on a fresh goroutine and `send` itself always returns;
without it the caller runs `route` and inherits its blocking. -/
def send (sender : String) (value : NoteValue) (confirm : Bool)
    (queue : List note) (async halt : Bool) : SendOutcome :=
  if async then
    .returned (errPart value)
  else
    match route sender value confirm queue halt with
    | .blocked => .blocked
    | _ => .returned (errPart value)

/-- C9: `IsCode(code, err)` is true exactly when `err` is a coded
notification of that code, and for every error value that is not a coded
notification exactly when `code = 1`. -/
theorem IsCode_spec (code : Int) (e : ErrValue) :
    IsCode code e = true ↔
      (∃ n, e = ErrValue.notif n ∧ code = n.code) ∨
      ((∀ n, e ≠ ErrValue.notif n) ∧ code = 1) := by
  cases e with
  | notif n =>
      simp only [IsCode, decide_eq_true_eq]
      constructor
      · intro h; exact Or.inl ⟨n, rfl, h⟩
      · rintro (⟨m, hm, hc⟩ | ⟨hne, _⟩)
        · cases hm; exact hc
        · exact absurd rfl (hne n)
  | generic m =>
      simp only [IsCode, decide_eq_true_eq]
      constructor
      · intro h; exact Or.inr ⟨fun n h1 => ErrValue.noConfusion h1, h⟩
      · rintro (⟨n, hn, _⟩ | ⟨_, hc⟩)
        · cases hn
        · exact hc

/-- C8 counterexample: a `Failure` closure called with code 0 (which is
less than 1) routes a notification that keeps code 0 and prints no
warning; the claim would require code 1 and a warning.  This is the
`failSecond(0, "Trying to open myfunc.cfg")` call of the repository's own
test, whose comment says it logs a GeneralMessage (code 0). -/
theorem Failure_keeps_code_zero :
    (FailureValue 0 "Trying to open myfunc.cfg").code = 0 ∧
    ¬ (FailureValue 0 "Trying to open myfunc.cfg").code = 1 ∧
    FailureWarned 0 "Trying to open myfunc.cfg" = false := by
  decide

/-- C8 amended: the guard in `newf` is `code < 0`, so a `Failure` closure
normalizes a negative supplied code to 1 with a warning, and keeps every
supplied code ≥ 0 (including 0) unchanged with no warning. -/
theorem Failure_code_normalization (code : Int) (msg : String) :
    (FailureValue code msg).code = (if code < 0 then 1 else code) ∧
    FailureWarned code msg = decide (code < 0) := by
  unfold FailureValue FailureWarned newf
  by_cases h : code < 0 <;> simp [h]

/-- C3: evaluation of `route` at the failing input.  While halting, a
submission that carries no confirmation channel (every `Sender`/`Failure`
closure passes `confirm = nil`) reaches `confirm <- true` with a nil
channel and blocks forever: the record is indeed not queued, but the
warning is never printed and the call never returns to the caller.  With a
confirmation channel supplied the claimed behaviour does occur (second
conjunct). -/
theorem route_blocks_without_confirm :
    route "MyMainThread" (.str "Are you still there?") false [] true
      = RouteOutcome.blocked ∧
    route "MyMainThread" (.str "Are you still there?") true [] true
      = RouteOutcome.rejected "MyMainThread cannot send to a closed channel" := by
  exact ⟨rfl, rfl⟩

/-- C7: evaluation of `send` at the failing input.  A synchronous `send`
performed while halting (with the nil confirmation channel that `Sender`
and `Failure` always pass) blocks forever inside `route` and never reaches
the `return` statement, so the claimed return value is not produced
regardless of the payload.  The second conjunct shows the asynchronous
policy masking the same slip: `send` then returns the error part of the
value as claimed. -/
theorem send_blocks_when_halted_sync :
    send "MyGoRoutine" (.err "something bad happened") false [] false true
      = SendOutcome.blocked ∧
    send "MyGoRoutine" (.err "something bad happened") false [] true true
      = SendOutcome.returned (some (.generic "something bad happened")) := by
  exact ⟨rfl, rfl⟩

/-- `standardCodes` (notify_codes.go lines 6-73): the built-in code table.
There is one such object per process; every notifier references it. -/
def standardCodes : CodeTable :=
  [(0, ("MSG", "GeneralMessage")),
   (1, ("ERR", "GeneralError")),
   (2, ("ERR", "ConfigurationError")),
   (3, ("ERR", "FailedAction")),
   (4, ("ERR", "UserError")),
   (10, ("ERR", "CatastrophicFailure")),
   (100, ("MSG", "HTTP-StatusContinue")),
   (101, ("MSG", "HTTP-StatusSwitchingProtocols")),
   (102, ("MSG", "HTTP-StatusProcessing")),
   (200, ("MSG", "HTTP-StatusOK")),
   (201, ("MSG", "HTTP-StatusCreated")),
   (202, ("MSG", "HTTP-StatusAccepted")),
   (203, ("MSG", "HTTP-StatusNonAuthoritativeInfo")),
   (204, ("MSG", "HTTP-StatusNoContent")),
   (205, ("MSG", "HTTP-StatusResetContent")),
   (206, ("MSG", "HTTP-StatusPartialContent")),
   (207, ("MSG", "HTTP-StatusMultiStatus")),
   (208, ("MSG", "HTTP-StatusAlreadyReported")),
   (226, ("MSG", "HTTP-StatusIMUsed")),
   (300, ("MSG", "HTTP-StatusMultipleChoices")),
   (301, ("MSG", "HTTP-StatusMovedPermanently")),
   (302, ("MSG", "HTTP-StatusFound")),
   (303, ("MSG", "HTTP-StatusSeeOther")),
   (304, ("MSG", "HTTP-StatusNotModified")),
   (305, ("MSG", "HTTP-StatusUseProxy")),
   (307, ("MSG", "HTTP-StatusTemporaryRedirect")),
   (308, ("MSG", "HTTP-StatusPermanentRedirect")),
   (400, ("ERR", "HTTP-StatusBadRequest")),
   (401, ("ERR", "HTTP-StatusUnauthorized")),
   (402, ("ERR", "HTTP-StatusPaymentRequired")),
   (403, ("ERR", "HTTP-StatusForbidden")),
   (404, ("ERR", "HTTP-StatusNotFound")),
   (405, ("ERR", "HTTP-StatusMethodNotAllowed")),
   (406, ("ERR", "HTTP-StatusNotAcceptable")),
   (407, ("ERR", "HTTP-StatusProxyAuthRequired")),
   (408, ("ERR", "HTTP-StatusRequestTimeout")),
   (409, ("ERR", "HTTP-StatusConflict")),
   (410, ("ERR", "HTTP-StatusGone")),
   (411, ("ERR", "HTTP-StatusLengthRequired")),
   (412, ("ERR", "HTTP-StatusPreconditionFailed")),
   (413, ("ERR", "HTTP-StatusRequestEntityTooLarge")),
   (414, ("ERR", "HTTP-StatusRequestURITooLong")),
   (415, ("ERR", "HTTP-StatusUnsupportedMediaType")),
   (416, ("ERR", "HTTP-StatusRequestedRangeNotSatisfiable")),
   (417, ("ERR", "HTTP-StatusExpectationFailed")),
   (418, ("ERR", "HTTP-StatusTeapot")),
   (422, ("ERR", "HTTP-StatusUnprocessableEntity")),
   (423, ("ERR", "HTTP-StatusLocked")),
   (424, ("ERR", "HTTP-StatusFailedDependency")),
   (426, ("ERR", "HTTP-StatusUpgradeRequired")),
   (428, ("ERR", "HTTP-StatusPreconditionRequired")),
   (429, ("ERR", "HTTP-StatusTooManyRequests")),
   (431, ("ERR", "HTTP-StatusRequestHeaderFieldsTooLarge")),
   (451, ("ERR", "HTTP-StatusUnavailableForLegalReasons")),
   (500, ("ERR", "HTTP-StatusInternalServerError")),
   (501, ("ERR", "HTTP-StatusNotImplemented")),
   (502, ("ERR", "HTTP-StatusBadGateway")),
   (503, ("ERR", "HTTP-StatusServiceUnavailable")),
   (504, ("ERR", "HTTP-StatusGatewayTimeout")),
   (505, ("ERR", "HTTP-StatusHTTPVersionNotSupported")),
   (506, ("ERR", "HTTP-StatusVariantAlsoNegotiates")),
   (507, ("ERR", "HTTP-StatusInsufficientStorage")),
   (508, ("ERR", "HTTP-StatusLoopDetected")),
   (510, ("ERR", "HTTP-StatusNotExtended")),
   (511, ("ERR", "HTTP-StatusNetworkAuthenticationRequired")),
   (999, ("ERR", "ShouldNeverHappen"))]

/-- Heap address of the process-wide `standardCodes` object. -/
def standardCodesRef : Nat := 0

/-- The initial heap: only the `standardCodes` object exists. -/
def store0 : Store := [standardCodes]

/-- A writable sink (`*os.File`), identified by its handle.  Opening and
validating file paths (`openLogFile`) is outside the model: endpoints are
already-opened handles.  Handle 0 is `os.Stdout`. -/
abbrev Endpoint := Nat

/-- The `os.Stdout` endpoint. -/
def stdout : Endpoint := 0

/-- Duplicate removal in `NewNotifier` (notify.go lines 81-88): first-seen
order is kept. -/
def dedupEndpoints (l : List Endpoint) : List Endpoint :=
  l.foldl (fun acc e => if e ∈ acc then acc else acc ++ [e]) []

/-- `notifier` (notify_private.go lines 34-45).  `notificationCodes` holds
the heap address of the code-table object (Go maps are references);
`halt` and `running` are the `operations` flags; `endpointsPtr` is the
lock-guarded endpoint slice; `instanceName` renders the Go field
`instance`.  The queue (`noteChan`) is passed around explicitly as a
`List note`. -/
structure notifier where
  service : String
  instanceName : String
  logAll : Bool
  notificationCodes : Nat
  safetySwitch : Bool
  async : Bool
  json : Bool
  halt : Bool
  running : Bool
  endpointsPtr : List Endpoint
deriving DecidableEq

/-- `NewNotifier` (notify.go lines 50-104).  `notifierCap` (the channel
capacity) does not bound the modelled queue.  The assignment
`no.notificationCodes = standardCodes` copies the reference to the single
standard table, so every notifier gets the same address. -/
def NewNotifier (service instanceName : String) (logAll async json : Bool)
    (_notifierCap : Nat) (files : List Endpoint) : notifier :=
  let files := if files = [] then [stdout] else files
  { service := service
    instanceName := instanceName
    logAll := logAll
    notificationCodes := standardCodesRef
    safetySwitch := false
    async := async
    json := json
    halt := false
    running := false
    endpointsPtr := dedupEndpoints files }

/-- The code-table object a notifier references. -/
def notifTable (no : notifier) (store : Store) : CodeTable :=
  store.getD no.notificationCodes []

/-- `isOK` (notify_private.go lines 99-108) as a predicate: true when the
system codes 0, 1, 999 all resolve; the Go function panics otherwise. -/
def isOKb (no : notifier) (store : Store) : Bool :=
  [(0 : Int), 1, 999].all (fun c => (tblLookup (notifTable no store) c).isSome)

/-- `logEntry` (notify_private.go lines 163-172). -/
structure logEntry where
  Timestamp : Int
  Service : String
  Instance : String
  Sender : String
  Level : String
  Code : Int
  Status : String
  Message : String
deriving DecidableEq

/-- The control characters replaced by `correct`
(notify_private.go line 198): tab, newline, carriage return, backspace,
form feed, vertical tab. -/
def ctlChars : List Char := ['\t', '\n', '\x0d', '\x08', '\x0c', '\x0b']

/-- Replace every occurrence of each control symbol by a space.  The
source calls `strings.Replace` once per symbol; every pattern is a single
character and the replacement is a single space, so the sequence of
replacements is the same function as mapping over the characters. -/
def replaceCtl (s : String) : String :=
  String.mk (s.toList.map (fun c => if c ∈ ctlChars then ' ' else c))

/-- Empty-string substitution in `correct`. -/
def fixEmpty (s : String) : String :=
  if s = "" then "N/A" else s

/-- `correct` (notify_private.go lines 175-207): empty string fields
become "N/A", then control characters become spaces.  Defined in the
source but never invoked by `log`. -/
def correct (l : logEntry) : logEntry :=
  { l with
    Service := replaceCtl (fixEmpty l.Service)
    Instance := replaceCtl (fixEmpty l.Instance)
    Sender := replaceCtl (fixEmpty l.Sender)
    Level := replaceCtl (fixEmpty l.Level)
    Status := replaceCtl (fixEmpty l.Status)
    Message := replaceCtl (fixEmpty l.Message) }

/-- `toStr` (notify_private.go lines 210-213): the tab-delimited 8-field
line. -/
def toStr (l : logEntry) : String :=
  toString l.Timestamp ++ "\t" ++ l.Service ++ "\t" ++ l.Instance ++ "\t" ++
    l.Sender ++ "\t" ++ l.Level ++ "\t" ++ toString l.Code ++ "\t" ++
    l.Status ++ "\t" ++ l.Message

/-- Lower-case hex digit. -/
def hexDigit (n : Nat) : Char :=
  if n < 10 then Char.ofNat (48 + n) else Char.ofNat (87 + n)

/-- JSON string escaping as done by Go's `encoding/json` for the
characters that can occur here (the HTML escapes of `<`, `>`, `&` are not
reproduced; no claim depends on them). -/
def jsonEscapeChar (c : Char) : String :=
  if c = '"' then "\\\""
  else if c = '\\' then "\\\\"
  else if c = '\n' then "\\n"
  else if c = '\r' then "\\r"
  else if c = '\t' then "\\t"
  else if c.toNat < 32 then
    "\\u00" ++ String.singleton (hexDigit (c.toNat / 16)) ++
      String.singleton (hexDigit (c.toNat % 16))
  else String.singleton c

/-- A JSON-quoted string. -/
def jsonStr (s : String) : String :=
  "\"" ++ String.join (s.toList.map jsonEscapeChar) ++ "\""

/-- `toJson` (notify_private.go lines 216-224): one JSON object per line,
field names as in the struct tags. -/
def toJson (l : logEntry) : String :=
  "\x7b\"Timestamp\":" ++ toString l.Timestamp ++
    ",\"Service\":" ++ jsonStr l.Service ++
    ",\"Instance\":" ++ jsonStr l.Instance ++
    ",\"Sender\":" ++ jsonStr l.Sender ++
    ",\"Level\":" ++ jsonStr l.Level ++
    ",\"Code\":" ++ toString l.Code ++
    ",\"Status\":" ++ jsonStr l.Status ++
    ",\"Message\":" ++ jsonStr l.Message ++ "\x7d"

/-- The Code and Message fields chosen by the type switch in `log`
(notify_private.go lines 249-272): a notification keeps its code when the
table resolves it and degrades to 1 otherwise; generic errors get code 1;
strings get code 0; unsupported values get code 999. -/
def logCodeMsg (no : notifier) (store : Store) : NoteValue → Int × String
  | .notif nf =>
      if (tblLookup (notifTable no store) nf.code).isSome then (nf.code, nf.message)
      else (1, nf.message)
  | .err m => (1, m)
  | .str s => (0, s)
  | .other => (999, "Unknown value used in notify.send")

/-- The `noteToSelf` a `log` call issues: only an unknown notification
code triggers one (notify_private.go lines 253-255). -/
def logSelfNote (no : notifier) (store : Store) : NoteValue → Option notification
  | .notif nf =>
      if (tblLookup (notifTable no store) nf.code).isSome then none
      else some (newf 999
        ("Unknown error code used. Replacing '" ++ toString nf.code ++ "' with '1'")).1
  | _ => none

/-- The log entry `log` builds for a note (notify_private.go lines
242-277).  The source never applies `correct` to it before encoding. -/
def logEntryOf (no : notifier) (store : Store) (now : Int) (n : note) : logEntry :=
  let cm := logCodeMsg no store n.Value
  let ls := (tblLookup (notifTable no store) cm.1).getD ("", "")
  { Timestamp := now
    Service := no.service
    Instance := no.instanceName
    Sender := n.Sender
    Level := ls.1
    Code := cm.1
    Status := ls.2
    Message := cm.2 }

/-- The encoded line `log` writes (without the trailing newline). -/
def logLine (no : notifier) (store : Store) (now : Int) (n : note) : String :=
  if no.json then toJson (logEntryOf no store now n)
  else toStr (logEntryOf no store now n)

/-- The observable effect of one `log` call: the writes issued to the
endpoints in order, the self-directed note (if any), and whether the
deferred `n.Confirm <- true` fired. -/
structure LogEffect where
  writes : List (Endpoint × String)
  selfNote : Option notification
  confirmFired : Bool
deriving DecidableEq

/-- `log` (notify_private.go lines 231-293).  `none` models the `isOK`
panic.  Each endpoint receives the line plus a newline; the confirmation
fires (deferred) whenever a confirmation channel was attached. -/
def logModel (no : notifier) (store : Store) (now : Int) (n : note) : Option LogEffect :=
  if isOKb no store then
    some { writes := no.endpointsPtr.map (fun e => (e, logLine no store now n ++ "\n"))
           selfNote := logSelfNote no store n.Value
           confirmFired := n.hasConfirm }
  else none

/-- The notifier and note of the repository's own TestEmptyNotifier, in
text mode: every sanitizable field empty. -/
def c2no : notifier :=
  NewNotifier "" "" true false false 100 [stdout]

/-- A note with empty sender and empty string payload. -/
def c2note : note :=
  { Sender := "", Value := .str "", hasConfirm := false }

/-- C2: evaluation at the failing input.  `log` encodes the entry without
ever calling `correct`: the line written for an all-empty record keeps its
empty fields, while the `correct` the source defines (and the repository's
TestEmptyNotifier expects) would have produced the "N/A" sentinels. -/
theorem log_skips_sanitization :
    logLine c2no store0 0 c2note = "0\t\t\t\tMSG\t0\tGeneralMessage\t" ∧
    toStr (correct (logEntryOf c2no store0 0 c2note)) =
      "0\tN/A\tN/A\tN/A\tMSG\t0\tGeneralMessage\tN/A" := by
  exact ⟨rfl, rfl⟩

/-- The state of the `for code, notification := range newCodes` loop in
`SetCodes` (notify.go lines 148-157): the table being written through the
map reference and the running count of dropped entries.  Each dropped
code also emits a `noteToSelf` warning, which is a queue side effect not
tracked here. -/
structure LoopOut where
  table : CodeTable
  fails : Nat
deriving DecidableEq

/-- The `SetCodes` replacement loop.  Go map iteration order is
unspecified; the processing of each entry is independent of the order, so
the list order stands in for it. -/
def setCodesLoop : List (Int × CodeEntry) → CodeTable → Nat → LoopOut
  | [], t, fails => { table := t, fails := fails }
  | (c, v) :: rest, t, fails =>
    if c ≤ 1 ∨ 999 ≤ c then setCodesLoop rest t (fails + 1)
    else setCodesLoop rest (tblInsert t c v) fails

/-- Result of one `SetCodes` call: the updated notifier (safety switch),
the updated heap, the local `fails` counter, the returned error (`none`
is Go `nil`), and whether `isOK` panicked. -/
structure SetCodesOut where
  no : notifier
  store : Store
  fails : Nat
  result : Option notification
  panicked : Bool
deriving DecidableEq

/-- `SetCodes` (notify.go lines 130-165).  The guard order follows the
source: `isOK` (panic), then the running check, then the single-shot
safety switch; only then is the switch set and the table mutated through
the shared reference. -/
def SetCodes (no : notifier) (store : Store)
    (newCodes : List (Int × CodeEntry)) : SetCodesOut :=
  if isOKb no store then
    if no.running then
      { no := no, store := store, fails := 0,
        result := some (newf 4 "Cannot change codes on a running notifier").1,
        panicked := false }
    else if no.safetySwitch then
      { no := no, store := store, fails := 0,
        result := some (newf 999 "You are trying to change notification codes again. This action is not permitted.").1,
        panicked := false }
    else
      let out := setCodesLoop newCodes (notifTable no store) 0
      { no := { no with safetySwitch := true },
        store := store.set no.notificationCodes out.table,
        fails := out.fails,
        result :=
          if out.fails > 0 then
            some (newf 4 ("Failed replacing " ++ toString out.fails ++
              " status codes: invalid range")).1
          else none,
        panicked := false }
  else
    { no := no, store := store, fails := 0, result := none, panicked := true }

theorem tblLookup_cons (k : Int) (v : CodeEntry) (t : CodeTable) (c : Int) :
    tblLookup ((k, v) :: t) c = if k = c then some v else tblLookup t c := rfl

theorem tblLookup_filter_ne (t : CodeTable) (k c : Int) (hkc : k ≠ c) :
    tblLookup (t.filter (fun p => decide (p.1 ≠ k))) c = tblLookup t c := by
  induction t with
  | nil => rfl
  | cons p rest ih =>
    obtain ⟨a, b⟩ := p
    rw [List.filter_cons]
    by_cases ha : a = k
    · subst ha
      rw [if_neg (by simp)]
      rw [ih, tblLookup_cons, if_neg hkc]
    · rw [if_pos (by simpa using ha)]
      rw [tblLookup_cons, tblLookup_cons]
      by_cases hac : a = c
      · rw [if_pos hac, if_pos hac]
      · rw [if_neg hac, if_neg hac]
        exact ih

theorem tblLookup_insert (t : CodeTable) (k c : Int) (v : CodeEntry) :
    tblLookup (tblInsert t k v) c = if k = c then some v else tblLookup t c := by
  unfold tblInsert
  rw [tblLookup_cons]
  by_cases h : k = c
  · rw [if_pos h, if_pos h]
  · rw [if_neg h, if_neg h]
    exact tblLookup_filter_ne t k c h

theorem setCodesLoop_lookup_invalid (l : List (Int × CodeEntry)) (t : CodeTable)
    (f : Nat) (c : Int) (hc : c ≤ 1 ∨ 999 ≤ c) :
    tblLookup (setCodesLoop l t f).table c = tblLookup t c := by
  induction l generalizing t f with
  | nil => rfl
  | cons p rest ih =>
    obtain ⟨k, v⟩ := p
    unfold setCodesLoop
    by_cases h : k ≤ 1 ∨ 999 ≤ k
    · rw [if_pos h]; exact ih t (f + 1)
    · rw [if_neg h]
      rw [ih (tblInsert t k v) f]
      rw [tblLookup_insert]
      rw [if_neg (by omega)]

theorem setCodesLoop_lookup_notmem (l : List (Int × CodeEntry)) :
    ∀ (t : CodeTable) (f : Nat) (c : Int), c ∉ l.map Prod.fst →
      tblLookup (setCodesLoop l t f).table c = tblLookup t c := by
  induction l with
  | nil => intro t f c _; rfl
  | cons p rest ih =>
      intro t f c hc
      obtain ⟨k, v⟩ := p
      have hk : k ≠ c := by
        intro h; exact hc (by simp [h])
      have hrest : c ∉ rest.map Prod.fst := by
        intro h; exact hc (by simp [h])
      unfold setCodesLoop
      by_cases h : k ≤ 1 ∨ 999 ≤ k
      · rw [if_pos h]; exact ih t (f + 1) c hrest
      · rw [if_neg h]
        rw [ih (tblInsert t k v) f c hrest]
        rw [tblLookup_insert, if_neg hk]

theorem setCodesLoop_lookup_mem (l : List (Int × CodeEntry)) :
    ∀ (t : CodeTable) (f : Nat) (c : Int) (v : CodeEntry),
      (l.map Prod.fst).Nodup → (c, v) ∈ l → 1 < c → c < 999 →
      tblLookup (setCodesLoop l t f).table c = some v := by
  induction l with
  | nil =>
      intro t f c v _ hmem _ _
      cases hmem
  | cons p rest ih =>
      intro t f c v hnd hmem h1 h2
      obtain ⟨k, w⟩ := p
      rw [List.map_cons] at hnd
      have hnds := List.nodup_cons.mp hnd
      rcases List.mem_cons.mp hmem with heq | hmem'
      · injection heq with hk hw
        subst hk; subst hw
        unfold setCodesLoop
        rw [if_neg (by omega)]
        rw [setCodesLoop_lookup_notmem rest (tblInsert t c v) f c hnds.1]
        rw [tblLookup_insert, if_pos rfl]
      · unfold setCodesLoop
        by_cases h : k ≤ 1 ∨ 999 ≤ k
        · rw [if_pos h]; exact ih t (f + 1) c v hnds.2 hmem' h1 h2
        · rw [if_neg h]; exact ih (tblInsert t k w) f c v hnds.2 hmem' h1 h2

theorem setCodesLoop_fails (l : List (Int × CodeEntry)) :
    ∀ (t : CodeTable) (f : Nat),
      (setCodesLoop l t f).fails
        = f + l.countP (fun p => decide (p.1 ≤ 1 ∨ 999 ≤ p.1)) := by
  induction l with
  | nil => intro t f; simp [setCodesLoop]
  | cons p rest ih =>
      intro t f
      obtain ⟨k, v⟩ := p
      unfold setCodesLoop
      by_cases h : k ≤ 1 ∨ 999 ≤ k
      · rw [if_pos h, ih t (f + 1), List.countP_cons, if_pos (decide_eq_true h)]
        omega
      · rw [if_neg h, ih (tblInsert t k v) f, List.countP_cons,
          if_neg (by simpa using h)]
        omega

theorem getD_set_self (store : Store) :
    ∀ (n : Nat) (t : CodeTable), n < store.length →
      (store.set n t).getD n [] = t := by
  induction store with
  | nil => intro n t h; simp at h
  | cons hd tl ih =>
      intro n t h
      cases n with
      | zero => rfl
      | succ m => exact ih m t (by simpa using h)

theorem set_of_length_le (store : Store) :
    ∀ (n : Nat) (t : CodeTable), store.length ≤ n →
      store.set n t = store := by
  induction store with
  | nil => intro n t _; rfl
  | cons hd tl ih =>
      intro n t h
      cases n with
      | zero => simp at h
      | succ m =>
          show hd :: tl.set m t = hd :: tl
          rw [ih m t (by simpa using h)]

/-- Unfolding of the system-code check over the literal list. -/
theorem isOKb_eq (no : notifier) (store : Store) :
    isOKb no store = ((tblLookup (notifTable no store) 0).isSome &&
      ((tblLookup (notifTable no store) 1).isSome &&
        ((tblLookup (notifTable no store) 999).isSome && true))) := rfl

/-- After the replacement loop runs through the shared reference, every
lookup of a non-replaceable code (in particular the system codes) is
unchanged. -/
theorem setCodes_table_lookup_invalid (no : notifier) (store : Store)
    (newCodes : List (Int × CodeEntry)) (c : Int) (hc : c ≤ 1 ∨ 999 ≤ c) :
    tblLookup ((store.set no.notificationCodes
        (setCodesLoop newCodes (notifTable no store) 0).table).getD
          no.notificationCodes []) c
      = tblLookup (notifTable no store) c := by
  by_cases h : no.notificationCodes < store.length
  · rw [getD_set_self store _ _ h]
    exact setCodesLoop_lookup_invalid newCodes (notifTable no store) 0 c hc
  · rw [set_of_length_le store _ _ (Nat.le_of_not_lt h)]
    rfl

/-- `SetCodes` never removes the system codes, so a notifier that passed
`isOK` before the call still passes it afterwards. -/
theorem isOKb_setCodes (no : notifier) (store : Store)
    (newCodes : List (Int × CodeEntry)) (hok : isOKb no store = true) :
    isOKb (SetCodes no store newCodes).no (SetCodes no store newCodes).store = true := by
  unfold SetCodes
  rw [if_pos hok]
  by_cases hr : no.running = true
  · rw [if_pos hr]; exact hok
  · rw [if_neg hr]
    by_cases hs : no.safetySwitch = true
    · rw [if_pos hs]; exact hok
    · rw [if_neg hs]
      show isOKb { no with safetySwitch := true }
        (store.set no.notificationCodes
          (setCodesLoop newCodes (notifTable no store) 0).table) = true
      rw [isOKb_eq] at hok ⊢
      show ((tblLookup ((store.set no.notificationCodes
          (setCodesLoop newCodes (notifTable no store) 0).table).getD
            no.notificationCodes []) 0).isSome &&
        ((tblLookup ((store.set no.notificationCodes
          (setCodesLoop newCodes (notifTable no store) 0).table).getD
            no.notificationCodes []) 1).isSome &&
          ((tblLookup ((store.set no.notificationCodes
            (setCodesLoop newCodes (notifTable no store) 0).table).getD
              no.notificationCodes []) 999).isSome && true))) = true
      rw [setCodes_table_lookup_invalid no store newCodes 0 (Or.inl (by norm_num)),
        setCodes_table_lookup_invalid no store newCodes 1 (Or.inl (by norm_num)),
        setCodes_table_lookup_invalid no store newCodes 999 (Or.inr (by norm_num))]
      exact hok

/-- Reduction of `SetCodes` on a not-running notifier whose safety switch
is off: the main replacement branch. -/
theorem SetCodes_main_eq (no : notifier) (store : Store)
    (newCodes : List (Int × CodeEntry))
    (hok : isOKb no store = true) (hrun : no.running = false)
    (hss : no.safetySwitch = false) :
    SetCodes no store newCodes =
      { no := { no with safetySwitch := true },
        store := store.set no.notificationCodes
          (setCodesLoop newCodes (notifTable no store) 0).table,
        fails := (setCodesLoop newCodes (notifTable no store) 0).fails,
        result :=
          if (setCodesLoop newCodes (notifTable no store) 0).fails > 0 then
            some (newf 4 ("Failed replacing " ++
              toString (setCodesLoop newCodes (notifTable no store) 0).fails ++
              " status codes: invalid range")).1
          else none,
        panicked := false } := by
  unfold SetCodes
  rw [if_pos hok, if_neg (by rw [hrun]; exact Bool.false_ne_true),
    if_neg (by rw [hss]; exact Bool.false_ne_true)]

/-- C4: the first `SetCodes` call on a notifier whose consumer loop is
not running installs every entry with 1 < code < 999 in the (shared) code
table, drops every entry with code ≤ 1 or code ≥ 999 leaving those codes
unchanged, counts the dropped entries, and returns an error reporting that
count when at least one entry was dropped and nil otherwise — the valid
entries taking effect either way. -/
theorem SetCodes_first_call (no : notifier) (store : Store)
    (newCodes : List (Int × CodeEntry))
    (hok : isOKb no store = true) (hrun : no.running = false)
    (hss : no.safetySwitch = false) (href : no.notificationCodes < store.length)
    (hnd : (newCodes.map Prod.fst).Nodup) :
    (∀ c v, (c, v) ∈ newCodes → 1 < c → c < 999 →
        tblLookup (notifTable (SetCodes no store newCodes).no
          (SetCodes no store newCodes).store) c = some v) ∧
    (∀ c, c ≤ 1 ∨ 999 ≤ c →
        tblLookup (notifTable (SetCodes no store newCodes).no
          (SetCodes no store newCodes).store) c
          = tblLookup (notifTable no store) c) ∧
    (SetCodes no store newCodes).fails
        = newCodes.countP (fun p => decide (p.1 ≤ 1 ∨ 999 ≤ p.1)) ∧
    ((SetCodes no store newCodes).fails > 0 →
        (SetCodes no store newCodes).result = some (newf 4 ("Failed replacing " ++
          toString (SetCodes no store newCodes).fails ++
          " status codes: invalid range")).1) ∧
    ((SetCodes no store newCodes).fails = 0 →
        (SetCodes no store newCodes).result = none) := by
  rw [SetCodes_main_eq no store newCodes hok hrun hss]
  refine ⟨?_, ?_, ?_, ?_, ?_⟩
  · intro c v hmem h1 h2
    show tblLookup ((store.set no.notificationCodes
        (setCodesLoop newCodes (notifTable no store) 0).table).getD
          no.notificationCodes []) c = some v
    rw [getD_set_self store _ _ href]
    exact setCodesLoop_lookup_mem newCodes (notifTable no store) 0 c v hnd hmem h1 h2
  · intro c hc
    exact setCodes_table_lookup_invalid no store newCodes c hc
  · show (setCodesLoop newCodes (notifTable no store) 0).fails = _
    rw [setCodesLoop_fails newCodes (notifTable no store) 0]
    omega
  · intro hf
    show (if (setCodesLoop newCodes (notifTable no store) 0).fails > 0
        then _ else none) = _
    rw [if_pos hf]
  · intro hf
    have hf2 : (setCodesLoop newCodes (notifTable no store) 0).fails = 0 := hf
    show (if (setCodesLoop newCodes (notifTable no store) 0).fails > 0
        then _ else none) = none
    rw [if_neg (by omega)]

/-- C5: `SetCodes` fails with an explicit error both on a notifier whose
consumer loop is already running and on a second call (even pre-start),
and in both cases that call leaves the code table untouched. -/
theorem SetCodes_single_shot (no : notifier) (store : Store)
    (new1 new2 : List (Int × CodeEntry)) (hok : isOKb no store = true) :
    (no.running = true →
      (SetCodes no store new1).result
          = some (newf 4 "Cannot change codes on a running notifier").1 ∧
      (SetCodes no store new1).store = store ∧
      (SetCodes no store new1).no = no) ∧
    (no.running = false → no.safetySwitch = false →
      (SetCodes (SetCodes no store new1).no
          (SetCodes no store new1).store new2).result
        = some (newf 999 "You are trying to change notification codes again. This action is not permitted.").1 ∧
      (SetCodes (SetCodes no store new1).no
          (SetCodes no store new1).store new2).store
        = (SetCodes no store new1).store) := by
  constructor
  · intro hrun
    unfold SetCodes
    rw [if_pos hok, if_pos hrun]
    exact ⟨rfl, rfl, rfl⟩
  · intro hrun hss
    have hok2 := isOKb_setCodes no store new1 hok
    rw [SetCodes_main_eq no store new1 hok hrun hss] at hok2 ⊢
    unfold SetCodes
    dsimp only at hok2 ⊢
    rw [if_pos hok2, if_neg (by rw [hrun]; exact Bool.false_ne_true), if_pos rfl]
    exact ⟨rfl, rfl⟩

/-- The severity/label resolution `log` performs for a coded notification
whose code resolves in the (current) shared table. -/
theorem logEntryOf_known_notif (no : notifier) (store : Store) (now : Int)
    (sender : String) (nf : notification) (v : CodeEntry)
    (hlook : tblLookup (notifTable no store) nf.code = some v) :
    (logEntryOf no store now
        { Sender := sender, Value := .notif nf, hasConfirm := false }).Level = v.1 ∧
    (logEntryOf no store now
        { Sender := sender, Value := .notif nf, hasConfirm := false }).Status = v.2 ∧
    (logEntryOf no store now
        { Sender := sender, Value := .notif nf, hasConfirm := false }).Code = nf.code := by
  have hcm : logCodeMsg no store (.notif nf) = (nf.code, nf.message) := by
    show (if (tblLookup (notifTable no store) nf.code).isSome = true
        then (nf.code, nf.message) else ((1 : Int), nf.message)) = (nf.code, nf.message)
    rw [hlook]
    rfl
  refine ⟨?_, ?_, ?_⟩
  · show ((tblLookup (notifTable no store)
        (logCodeMsg no store (.notif nf)).1).getD ("", "")).1 = v.1
    rw [hcm]
    show ((tblLookup (notifTable no store) nf.code).getD ("", "")).1 = v.1
    rw [hlook]
    rfl
  · show ((tblLookup (notifTable no store)
        (logCodeMsg no store (.notif nf)).1).getD ("", "")).2 = v.2
    rw [hcm]
    show ((tblLookup (notifTable no store) nf.code).getD ("", "")).2 = v.2
    rw [hlook]
    rfl
  · show (logCodeMsg no store (.notif nf)).1 = nf.code
    rw [hcm]

/-- C10: every notifier is created with a reference to the one standard
code-table object, so a successful `SetCodes` on one notifier is visible
to code lookups (and to the severity/label resolution `log` performs) on
every other notifier, whether created before or after the call. -/
theorem shared_code_table
    (s1 i1 : String) (la1 as1 js1 : Bool) (cap1 : Nat) (eps1 : List Endpoint)
    (s2 i2 : String) (la2 as2 js2 : Bool) (cap2 : Nat) (eps2 : List Endpoint)
    (c : Int) (v : CodeEntry) (hc1 : 1 < c) (hc2 : c < 999)
    (hv : tblLookup standardCodes c ≠ some v) :
    tblLookup (notifTable (NewNotifier s2 i2 la2 as2 js2 cap2 eps2)
        (SetCodes (NewNotifier s1 i1 la1 as1 js1 cap1 eps1) store0 [(c, v)]).store) c
      = some v ∧
    tblLookup (notifTable (NewNotifier s2 i2 la2 as2 js2 cap2 eps2)
        (SetCodes (NewNotifier s1 i1 la1 as1 js1 cap1 eps1) store0 [(c, v)]).store) c
      ≠ tblLookup (notifTable (NewNotifier s2 i2 la2 as2 js2 cap2 eps2) store0) c ∧
    (logEntryOf (NewNotifier s2 i2 la2 as2 js2 cap2 eps2)
        (SetCodes (NewNotifier s1 i1 la1 as1 js1 cap1 eps1) store0 [(c, v)]).store 0
        { Sender := "job", Value := .notif { code := c, message := "m" },
          hasConfirm := false }).Level = v.1 ∧
    (logEntryOf (NewNotifier s2 i2 la2 as2 js2 cap2 eps2)
        (SetCodes (NewNotifier s1 i1 la1 as1 js1 cap1 eps1) store0 [(c, v)]).store 0
        { Sender := "job", Value := .notif { code := c, message := "m" },
          hasConfirm := false }).Status = v.2 := by
  have hloop : (setCodesLoop [(c, v)]
      (notifTable (NewNotifier s1 i1 la1 as1 js1 cap1 eps1) store0) 0).table
      = tblInsert standardCodes c v := by
    show (setCodesLoop [(c, v)] standardCodes 0).table = tblInsert standardCodes c v
    unfold setCodesLoop
    rw [if_neg (by omega)]
    rfl
  rw [SetCodes_main_eq (NewNotifier s1 i1 la1 as1 js1 cap1 eps1) store0 [(c, v)]
    rfl rfl rfl]
  have hlook : tblLookup (notifTable (NewNotifier s2 i2 la2 as2 js2 cap2 eps2)
      (store0.set (NewNotifier s1 i1 la1 as1 js1 cap1 eps1).notificationCodes
        (setCodesLoop [(c, v)]
          (notifTable (NewNotifier s1 i1 la1 as1 js1 cap1 eps1) store0) 0).table)) c
      = some v := by
    rw [hloop]
    show tblLookup (tblInsert standardCodes c v) c = some v
    rw [tblLookup_insert, if_pos rfl]
  refine ⟨hlook, ?_, ?_, ?_⟩
  · rw [hlook]
    show some v ≠ tblLookup standardCodes c
    exact fun h => hv h.symm
  · exact (logEntryOf_known_notif _ _ 0 "job" { code := c, message := "m" } v hlook).1
  · exact (logEntryOf_known_notif _ _ 0 "job" { code := c, message := "m" } v hlook).2.1

/-- The notifier used in the witnesses below: freshly constructed, not
running, safety switch off. -/
def w4no : notifier := NewNotifier "MyService" "MyServiceInstance" true false false 100 [stdout]

/-- A replacement table with three valid entries and two invalid ones
(codes 1 and 1000), as in the repository's TestSetCodes. -/
def w4codes : List (Int × CodeEntry) :=
  [(2, ("ERR", "Woopsie")), (5, ("WRN", "BeCareful")), (404, ("ERR", "NotFound")),
   (1, ("ERR", "Nope")), (1000, ("ERR", "TooBig"))]

/-- Witness for `SetCodes_first_call` at a concrete replacement map. -/
theorem SetCodes_first_call_witness :
    tblLookup (notifTable (SetCodes w4no store0 w4codes).no
        (SetCodes w4no store0 w4codes).store) 2 = some ("ERR", "Woopsie") ∧
    tblLookup (notifTable (SetCodes w4no store0 w4codes).no
        (SetCodes w4no store0 w4codes).store) 999 = some ("ERR", "ShouldNeverHappen") ∧
    (SetCodes w4no store0 w4codes).fails = 2 := by
  have h := SetCodes_first_call w4no store0 w4codes (by decide) (by decide)
    (by decide) (by decide) (by decide)
  refine ⟨h.1 2 ("ERR", "Woopsie") (by decide) (by decide) (by decide), ?_, ?_⟩
  · rw [h.2.1 999 (by decide)]
    decide
  · rw [h.2.2.1]
    decide

/-- Notifiers used in the `SetCodes_single_shot` witness. -/
def w5no : notifier := NewNotifier "MyService" "MyServiceInstance" true false false 100 [stdout]

/-- The same notifier with its consumer loop marked running. -/
def w5run : notifier := { w5no with running := true }

/-- Witness for `SetCodes_single_shot`: a second call after a successful
first call fails with the code-999 notification, and a call on a running
notifier fails with the code-4 notification. -/
theorem SetCodes_single_shot_witness :
    (SetCodes (SetCodes w5no store0 [(2, ("ERR", "Woopsie"))]).no
        (SetCodes w5no store0 [(2, ("ERR", "Woopsie"))]).store
        [(3, ("ERR", "Again"))]).result
      = some (newf 999 "You are trying to change notification codes again. This action is not permitted.").1 ∧
    (SetCodes w5run store0 [(2, ("ERR", "Woopsie"))]).result
      = some (newf 4 "Cannot change codes on a running notifier").1 := by
  constructor
  · exact ((SetCodes_single_shot w5no store0 [(2, ("ERR", "Woopsie"))]
      [(3, ("ERR", "Again"))] (by decide)).2 (by decide) (by decide)).1
  · exact ((SetCodes_single_shot w5run store0 [(2, ("ERR", "Woopsie"))]
      [(3, ("ERR", "Again"))] (by decide)).1 (by decide)).1

/-- Witness for `shared_code_table`: notifier "Second" (which never called
`SetCodes`) resolves code 2 to the entry installed through notifier
"First". -/
theorem shared_code_table_witness :
    tblLookup (notifTable (NewNotifier "MyService" "Second" false true true 50 [1])
        (SetCodes (NewNotifier "MyService" "First" true false false 100 [stdout])
          store0 [(2, ("ERR", "Woopsie"))]).store) 2 = some ("ERR", "Woopsie") := by
  exact (shared_code_table "MyService" "First" true false false 100 [stdout]
    "MyService" "Second" false true true 50 [1] 2 ("ERR", "Woopsie")
    (by decide) (by decide) (by decide)).1

/-- Result of the consumer loop draining the queue while the halting flag
is set (the situation during `Exit`): the loop either blocks forever,
panics in `isOK`, or finishes the backlog having issued a sequence of
endpoint writes. -/
inductive DrainResult where
  | blocked
  | panicked
  | drained (writes : List (Endpoint × String))
deriving DecidableEq

/-- The receive loop of `Run` (notify.go lines 184-207) processing the
backlog under halt, one note at a time and in FIFO channel order.
A string-valued note is only passed to `log` when `logAll` is set; other
values always are.  When `log` issues a `noteToSelf` (unknown
notification code) it calls `send` while halting with a nil confirmation
channel: with the synchronous policy the consumer itself blocks forever
on that nil-channel send inside `route`; with the asynchronous policy the
blocked send happens on a leaked goroutine and the consumer continues. -/
def drainBacklog (no : notifier) (store : Store) (now : Int) :
    List note → List (Endpoint × String) → DrainResult
  | [], acc => .drained acc
  | n :: rest, acc =>
    if n.Value.isStr && !no.logAll then
      drainBacklog no store now rest acc
    else
      match logModel no store now n with
      | none => .panicked
      | some eff =>
        if eff.selfNote.isSome && !no.async then .blocked
        else drainBacklog no store now rest (acc ++ eff.writes)

/-- The sentinel record `Exit` pushes through the queue (notify.go line
228): a string payload with a confirmation channel attached. -/
def sentinelNote : note :=
  { Sender := "notifier",
    Value := .str "Note channel has been closed. Exiting notifier loop.",
    hasConfirm := true }

/-- What a call to `Exit` does: return the inactive error, block forever
on the sentinel confirmation, die in a panic, or return nil after the
writes listed were performed. -/
inductive ExitOutcome where
  | notRunning (err : String)
  | blockedForever
  | panicked
  | ok (writes : List (Endpoint × String))
deriving DecidableEq

/-- `id` (notify_private.go lines 93-95), without the `%p` pointer. -/
def notifier.id (no : notifier) : String :=
  "Notifier[" ++ no.service ++ "][" ++ no.instanceName ++ "]"

/-- `Exit` (notify.go lines 218-251).  If the notifier is not running the
inactive error is returned at once.  Otherwise halt is set, the sentinel
is enqueued after the `backlog` already accepted, and `Exit` waits on the
sentinel's confirmation, which `log` fires after writing it.  The
consumer loop only calls `log` on the string-valued sentinel when
`logAll` is set, so otherwise the confirmation never fires and `Exit`
blocks forever on `<-confirm`.  On success the queue and the non-console
endpoints are closed and running is cleared, and nil is returned. -/
def notifier.Exit (no : notifier) (store : Store) (now : Int)
    (backlog : List note) : ExitOutcome :=
  if ¬ no.running then .notRunning (no.id ++ " was not running at exit time.")
  else
    match drainBacklog no store now backlog [] with
    | .blocked => .blockedForever
    | .panicked => .panicked
    | .drained ws =>
      if no.logAll then
        match logModel no store now sentinelNote with
        | none => .panicked
        | some eff => .ok (ws ++ eff.writes)
      else .blockedForever

/-- When `logAll` is set, a completed drain wrote exactly one line per
endpoint for each backlog record, in queue order. -/
theorem drainBacklog_writes (no : notifier) (store : Store) (now : Int)
    (hlog : no.logAll = true) :
    ∀ (q : List note) (acc ws : List (Endpoint × String)),
      drainBacklog no store now q acc = .drained ws →
      ws = acc ++ (q.map (fun n => no.endpointsPtr.map
        (fun e => (e, logLine no store now n ++ "\n")))).flatten := by
  intro q
  induction q with
  | nil =>
      intro acc ws h
      injection h with h
      simp [h.symm]
  | cons n rest ih =>
      intro acc ws h
      unfold drainBacklog at h
      rw [show (n.Value.isStr && !no.logAll) = false by rw [hlog]; simp] at h
      rw [if_neg (by simp)] at h
      cases hm : logModel no store now n with
      | none => rw [hm] at h; exact DrainResult.noConfusion h
      | some eff =>
          rw [hm] at h
          dsimp only at h
          have heff : eff.writes = no.endpointsPtr.map
              (fun e => (e, logLine no store now n ++ "\n")) := by
            unfold logModel at hm
            by_cases hok : isOKb no store = true
            · rw [if_pos hok] at hm
              cases Option.some.inj hm
              rfl
            · rw [if_neg hok] at hm; exact Option.noConfusion hm
          by_cases hc : (eff.selfNote.isSome && !no.async) = true
          · rw [if_pos hc] at h; exact DrainResult.noConfusion h
          · rw [if_neg hc] at h
            rw [ih (acc ++ eff.writes) ws h, heff, List.map_cons]
            show (acc ++ no.endpointsPtr.map (fun e => (e, logLine no store now n ++ "\n"))) ++
                (rest.map (fun n => no.endpointsPtr.map
                  (fun e => (e, logLine no store now n ++ "\n")))).flatten
              = acc ++ (no.endpointsPtr.map (fun e => (e, logLine no store now n ++ "\n")) ++
                (rest.map (fun n => no.endpointsPtr.map
                  (fun e => (e, logLine no store now n ++ "\n")))).flatten)
            rw [List.append_assoc]

/-- C1: if `Exit` on a running notifier returns nil, then the writes the
consumer performed are exactly one formatted line per endpoint for every
record accepted into the queue before halting, in order, plus the final
sentinel record — each backlog record written to every endpoint exactly
once and none lost.  (The hypothesis is not vacuous: the witness below
evaluates an `Exit` that does return nil.) -/
theorem Exit_flushes_backlog (no : notifier) (store : Store) (now : Int)
    (q : List note) (ws : List (Endpoint × String))
    (h : no.Exit store now q = .ok ws) :
    ws = ((q ++ [sentinelNote]).map (fun n => no.endpointsPtr.map
      (fun e => (e, logLine no store now n ++ "\n")))).flatten := by
  unfold notifier.Exit at h
  by_cases hrun : no.running = true
  · rw [if_neg (by simp [hrun])] at h
    cases hd : drainBacklog no store now q [] with
    | blocked => rw [hd] at h; exact ExitOutcome.noConfusion h
    | panicked => rw [hd] at h; exact ExitOutcome.noConfusion h
    | drained ws0 =>
        rw [hd] at h
        dsimp only at h
        by_cases hlog : no.logAll = true
        · rw [if_pos hlog] at h
          cases hm : logModel no store now sentinelNote with
          | none => rw [hm] at h; exact ExitOutcome.noConfusion h
          | some eff =>
              rw [hm] at h
              dsimp only at h
              injection h with h
              have hws0 := drainBacklog_writes no store now hlog q [] ws0 hd
              have heff : eff.writes = no.endpointsPtr.map
                  (fun e => (e, logLine no store now sentinelNote ++ "\n")) := by
                unfold logModel at hm
                by_cases hok : isOKb no store = true
                · rw [if_pos hok] at hm
                  cases Option.some.inj hm
                  rfl
                · rw [if_neg hok] at hm; exact Option.noConfusion hm
              rw [h.symm, hws0, heff, List.map_append, List.flatten_append]
              simp
        · rw [if_neg hlog] at h; exact ExitOutcome.noConfusion h
  · rw [if_pos hrun] at h; exact ExitOutcome.noConfusion h

/-- A running notifier with `logAll` set, text mode, two endpoints. -/
def w1no : notifier :=
  { NewNotifier "MyService" "MyServiceInstance" true false false 100 [0, 1] with
    running := true }

/-- A three-record backlog: a plain string, a known-code notification and
a generic error, all accepted before halting. -/
def w1q : List note :=
  [{ Sender := "MyGoRoutine", Value := .str "1th iteration: nothing bad happened",
     hasConfirm := false },
   { Sender := "MyGoRoutine",
     Value := .notif { code := 3, message := "2th iteration: something bad happened" },
     hasConfirm := false },
   { Sender := "MyGoRoutine", Value := .err "oops", hasConfirm := false }]

/-- The eight writes `Exit` performs for `w1q`: each of the three backlog
records and the sentinel, written once to each of the two endpoints, in
order. -/
def w1ws : List (Endpoint × String) :=
  [(0, "1481552048\tMyService\tMyServiceInstance\tMyGoRoutine\tMSG\t0\tGeneralMessage\t1th iteration: nothing bad happened\n"),
   (1, "1481552048\tMyService\tMyServiceInstance\tMyGoRoutine\tMSG\t0\tGeneralMessage\t1th iteration: nothing bad happened\n"),
   (0, "1481552048\tMyService\tMyServiceInstance\tMyGoRoutine\tERR\t3\tFailedAction\t2th iteration: something bad happened\n"),
   (1, "1481552048\tMyService\tMyServiceInstance\tMyGoRoutine\tERR\t3\tFailedAction\t2th iteration: something bad happened\n"),
   (0, "1481552048\tMyService\tMyServiceInstance\tMyGoRoutine\tERR\t1\tGeneralError\toops\n"),
   (1, "1481552048\tMyService\tMyServiceInstance\tMyGoRoutine\tERR\t1\tGeneralError\toops\n"),
   (0, "1481552048\tMyService\tMyServiceInstance\tnotifier\tMSG\t0\tGeneralMessage\tNote channel has been closed. Exiting notifier loop.\n"),
   (1, "1481552048\tMyService\tMyServiceInstance\tnotifier\tMSG\t0\tGeneralMessage\tNote channel has been closed. Exiting notifier loop.\n")]

/-- Witness for `Exit_flushes_backlog`: this `Exit` returns nil having
performed exactly the eight writes of `w1ws`, which the theorem equates
with one line per endpoint per accepted record plus the sentinel. -/
theorem Exit_flushes_backlog_witness :
    w1ws = ((w1q ++ [sentinelNote]).map (fun n => w1no.endpointsPtr.map
      (fun e => (e, logLine w1no store0 1481552048 n ++ "\n")))).flatten :=
  Exit_flushes_backlog w1no store0 1481552048 w1q w1ws (by decide)

/-- A running notifier constructed with `logAll = false`. -/
def c6no : notifier :=
  { NewNotifier "MyService" "MyServiceInstance" false false false 100 [stdout] with
    running := true }

/-- C6: evaluation at the failing input.  On a running notifier with
`logAll = false`, `Exit` never returns: the sentinel is a string-valued
note, `Run` only passes string notes to `log` when `logAll` is set, and
only `log` fires the confirmation `Exit` waits on, so `Exit` blocks
forever instead of returning nil.  The second conjunct shows the inactive
half of the claim behaving as stated: `Exit` on a notifier that never ran
returns the inactive error and does nothing. -/
theorem Exit_blocks_without_logAll :
    c6no.Exit store0 0 [] = ExitOutcome.blockedForever ∧
    (NewNotifier "MyService" "MyServiceInstance" false false false 100 [stdout]).Exit
        store0 0 []
      = ExitOutcome.notRunning
          "Notifier[MyService][MyServiceInstance] was not running at exit time." := by
  exact ⟨by decide, by decide⟩
